import Mathlib

/-!
Verification of the authentication and session-identity core of the
ITWEBMVP backend (src/auth.py, src/models.py, src/routes/auth_routes.py,
src/app.py).

Shallow embedding conventions:
* Time is in whole seconds (Nat, Unix epoch).
* The bcrypt primitive (passlib `CryptContext(schemes=["bcrypt"])`) and the
  jose JWT primitives (`jwt.encode` / `jwt.decode`) are third-party library
  code not present under src/; they are modelled from the specification
  (sections 4.1 and 4.2), idealising the cryptography: the bcrypt digest and
  the HMAC-SHA256 signature are replaced by injective pairings, so that
  "collision-free" and "unforgeable" hold by construction.
* The MongoDB collection is a `List UserDoc`; `find_one` is `List.find?`;
  the unique index on `email` created at startup (src/app.py) makes
  `insert_one` fail with a duplicate-key error when the email is present.
-/

namespace ITWebMVP

/-- Modelled from the spec: the passlib/bcrypt hash string (library code, not
under src/). Spec 4.1: "output encodes algorithm, cost factor, salt, and
digest together so verification needs no side channel". The digest is
idealised as the pair (salt, plaintext), which is injective, standing in for
an ideal collision-free keyed digest. -/
structure BcryptHash where
  cost : Nat
  salt : Nat
  digest : Nat × String
deriving DecidableEq, Repr

/-- src/auth.py `get_password_hash` (pwd_context.hash), with the salt that
passlib draws from its RNG made an explicit argument. -/
def get_password_hash (salt : Nat) (password : String) : BcryptHash :=
  { cost := 12, salt := salt, digest := (salt, password) }

/-- src/auth.py `verify_password` (pwd_context.verify): recomputes the digest
from the parameters embedded in the stored hash and compares. -/
def verify_password (plain_password : String) (hashed_password : BcryptHash) : Bool :=
  hashed_password.digest == (hashed_password.salt, plain_password)

/-- A stateful call to pwd_context.hash: passlib draws a fresh random salt
from the RNG on every call; the RNG state advances. -/
def pwd_hash_call (rng : Nat) (password : String) : BcryptHash × Nat :=
  (get_password_hash rng password, rng + 1)

/-- C1: for every plaintext p, verify(p, hash(p)) is true, and for distinct
plaintexts p1 ≠ p2, verify(p1, hash(p2)) is false (for any salt the hashing
scheme draws). -/
theorem verify_of_hash (salt : Nat) (p p1 p2 : String) (hne : p1 ≠ p2) :
    verify_password p (get_password_hash salt p) = true
    ∧ verify_password p1 (get_password_hash salt p2) = false := by
  refine ⟨by simp [verify_password, get_password_hash], ?_⟩
  simp only [verify_password, get_password_hash, beq_eq_false_iff_ne, ne_eq,
    Prod.mk.injEq, not_and]
  exact fun _ h => hne h.symm

/-- Witness for C1 at concrete inputs. -/
theorem verify_of_hash_witness :
    verify_password "pw12345678" (get_password_hash 7 "pw12345678") = true
    ∧ verify_password "alpha" (get_password_hash 7 "beta") = false :=
  verify_of_hash 7 "pw12345678" "alpha" "beta" (by decide)

/-! ## Token Issuer/Verifier (src/auth.py, jose JWT modelled from the spec) -/

/-- The JWT claims dictionary built by create_access_token: email, user_id
and exp. Fields email and user_id are optional because get_current_user
checks their presence; exp is a Unix timestamp in seconds. -/
structure TokenPayload where
  email : Option String
  user_id : Option String
  exp : Nat
deriving DecidableEq, Repr

/-- Modelled from the spec: the HMAC-SHA256 signature jose computes over the
payload with the shared secret (spec 4.2), idealised as the injective pair
(secret, payload) — unforgeable without the secret, by construction. -/
def macSign (secret : Nat) (p : TokenPayload) : Nat × TokenPayload :=
  (secret, p)

/-- A JWT as an abstract wire object: the signed payload and the signature.
Tampering with the opaque token string is modelled as producing a different
(payload, sig) pair. -/
structure JWT where
  payload : TokenPayload
  sig : Nat × TokenPayload
deriving DecidableEq, Repr

/-- Modelled from the spec: jose `jwt.encode` — sign the claims with the
shared secret. -/
def jwt_encode (secret : Nat) (p : TokenPayload) : JWT :=
  ⟨p, macSign secret p⟩

/-- The two internal failure kinds of token verification (spec section 7):
TokenInvalid (jose JWTError: bad signature or malformed claims) and
TokenExpired (jose ExpiredSignatureError). -/
inductive JWTError where
  | invalid
  | expired
deriving DecidableEq, Repr

/-- Modelled from the spec: jose `jwt.decode` — the signature is checked
first ("Signature check MUST happen before any claim-field interpretation"),
then expiry: fails TokenExpired once current time ≥ embedded expiry
(spec 4.2). -/
def jwt_decode (secret now : Nat) (t : JWT) : Except JWTError TokenPayload :=
  if t.sig = macSign secret t.payload then
    if now < t.payload.exp then .ok t.payload else .error .expired
  else .error .invalid

/-- src/auth.py ACCESS_TOKEN_EXPIRE_MINUTES (settings has no override, so the
default 30 applies). -/
def ACCESS_TOKEN_EXPIRE_MINUTES : Nat := 30

/-- src/auth.py `create_access_token`: expiry is current UTC time plus
expires_delta (in seconds), defaulting to ACCESS_TOKEN_EXPIRE_MINUTES;
the claims plus exp are signed with settings.JWT_SECRET_KEY. -/
def create_access_token (secret now : Nat) (email user_id : Option String)
    (expires_delta : Option Nat) : JWT :=
  jwt_encode secret
    { email := email, user_id := user_id,
      exp := now + expires_delta.getD (ACCESS_TOKEN_EXPIRE_MINUTES * 60) }

/-- Hexadecimal digit test used by bson ObjectId string validation. -/
def isHexChar (c : Char) : Bool :=
  c.isDigit || (('a' ≤ c) && (c ≤ 'f')) || (('A' ≤ c) && (c ≤ 'F'))

/-- bson `ObjectId.is_valid` on a string argument: a 24-character hex
string. -/
def ObjectId_is_valid (s : String) : Bool :=
  s.length == 24 && s.toList.all isHexChar

/-- The token-verification stage of src/auth.py `get_current_user`, before
the store lookup: decode the JWT (any JWTError propagates), require the
email and user_id claims to be present, and require user_id to be a
syntactically valid ObjectId (absence or invalidity is a TokenInvalid-kind
failure raised as the credentials exception). -/
def verify_token (secret now : Nat) (token : JWT) :
    Except JWTError (String × String) :=
  match jwt_decode secret now token with
  | .error e => .error e
  | .ok payload =>
    match payload.email, payload.user_id with
    | some email, some uid =>
      if ObjectId_is_valid uid then .ok (email, uid) else .error .invalid
    | _, _ => .error .invalid

/-- Helper: verifying a freshly issued token with the issuing secret, before
its ttl has elapsed, recovers exactly the issued identity claim. -/
theorem verify_token_fresh (secret now ttl : Nat) (email uid : String)
    (ht : 0 < ttl) (hv : ObjectId_is_valid uid = true) :
    verify_token secret now
      (create_access_token secret now (some email) (some uid) (some ttl))
      = .ok (email, uid) := by
  have hlt : now < now + ttl := Nat.lt_add_of_pos_right ht
  simp [verify_token, create_access_token, jwt_encode, jwt_decode, macSign,
    hlt, hv]

/-- C2: for every identity claim (an email plus a syntactically valid
ObjectId) and every ttl t > 0, verifying the token produced by issuance,
immediately after issuance, succeeds and yields exactly the issued claim. -/
theorem issue_verify_roundtrip (secret now ttl : Nat) (email uid : String)
    (ht : 0 < ttl) (hv : ObjectId_is_valid uid = true) :
    verify_token secret now
      (create_access_token secret now (some email) (some uid) (some ttl))
      = .ok (email, uid) :=
  verify_token_fresh secret now ttl email uid ht hv

/-- Witness for C2 at concrete inputs. -/
theorem issue_verify_roundtrip_witness :
    verify_token 5 1000
      (create_access_token 5 1000 (some "a@x.com")
        (some "507f1f77bcf86cd799439011") (some 60))
      = .ok ("a@x.com", "507f1f77bcf86cd799439011") :=
  issue_verify_roundtrip 5 1000 60 "a@x.com" "507f1f77bcf86cd799439011"
    (by decide) (by decide)

/-- C3: the issued token embeds an absolute expiry equal to issuance time
plus the ttl (30 minutes when no ttl is supplied), and verification fails
with TokenExpired once elapsed time since issuance is ≥ ttl. -/
theorem token_expiry (secret now ttl now2 : Nat) (email uid : Option String)
    (helapsed : now + ttl ≤ now2) :
    (create_access_token secret now email uid (some ttl)).payload.exp
      = now + ttl
    ∧ (create_access_token secret now email uid none).payload.exp
      = now + 30 * 60
    ∧ jwt_decode secret now2
        (create_access_token secret now email uid (some ttl))
      = .error .expired := by
  refine ⟨rfl, rfl, ?_⟩
  have hnot : ¬ now2 < now + ttl := Nat.not_lt.mpr helapsed
  simp [jwt_decode, create_access_token, jwt_encode, macSign, hnot]

/-- Witness for C3 at concrete inputs (issued at 1000 with ttl 60, checked
at 1060, exactly when elapsed time equals the ttl). -/
theorem token_expiry_witness :
    (create_access_token 5 1000 (some "a@x.com") (some "id0")
        (some 60)).payload.exp = 1000 + 60
    ∧ (create_access_token 5 1000 (some "a@x.com") (some "id0")
        none).payload.exp = 1000 + 30 * 60
    ∧ jwt_decode 5 1060
        (create_access_token 5 1000 (some "a@x.com") (some "id0") (some 60))
      = .error .expired :=
  token_expiry 5 1000 60 1060 (some "a@x.com") (some "id0") (by decide)

/-- C4: any tampering of an issued token — altering its signed claims while
keeping the signature, or altering the signature while keeping the claims —
makes decoding fail with TokenInvalid; and decoding never succeeds except on
a correctly signed token, returning exactly the claims that were signed. -/
theorem tamper_rejected (secret now ttl now2 : Nat) (email uid : Option String)
    (t tother : JWT) (p : TokenPayload)
    (hne : t ≠ create_access_token secret now email uid (some ttl))
    (hpart : t.sig = (create_access_token secret now email uid (some ttl)).sig
      ∨ t.payload = (create_access_token secret now email uid (some ttl)).payload) :
    jwt_decode secret now2 t = .error .invalid
    ∧ (jwt_decode secret now2 tother = .ok p →
        p = tother.payload ∧ tother.sig = macSign secret tother.payload) := by
  have horigsig : (create_access_token secret now email uid (some ttl)).sig
      = macSign secret
        (create_access_token secret now email uid (some ttl)).payload := rfl
  constructor
  · have hsig : t.sig ≠ macSign secret t.payload := by
      rcases hpart with hs | hp
      · intro hmac
        apply hne
        have hpay : t.payload
            = (create_access_token secret now email uid (some ttl)).payload := by
          have : macSign secret t.payload
              = macSign secret
                (create_access_token secret now email uid (some ttl)).payload := by
            rw [← hmac, hs]; rfl
          exact (Prod.mk.injEq _ _ _ _ ▸ this).2
        cases t
        simp_all [horigsig]
        cases hc : create_access_token secret now email uid (some ttl)
        simp_all
      · intro hmac
        apply hne
        cases t
        simp_all [create_access_token, jwt_encode, macSign]
    simp [jwt_decode, hsig]
  · intro hok
    by_cases hsig : tother.sig = macSign secret tother.payload
    · refine ⟨?_, hsig⟩
      simp only [jwt_decode, hsig, if_true] at hok
      by_cases hexp : now2 < tother.payload.exp
      · simp [hexp] at hok
        exact hok.symm
      · simp [hexp] at hok
    · simp [jwt_decode, hsig] at hok

/-- Witness for C4: the token issued for a@x.com, with its email claim
rewritten to b@x.com but the original signature kept, is rejected as
invalid. -/
theorem tamper_rejected_witness :
    jwt_decode 5 1000
      (JWT.mk ⟨some "b@x.com", some "507f1f77bcf86cd799439011", 1060⟩
        (5, ⟨some "a@x.com", some "507f1f77bcf86cd799439011", 1060⟩))
      = .error .invalid
    ∧ (jwt_decode 5 1000
        (create_access_token 5 1000 (some "a@x.com")
          (some "507f1f77bcf86cd799439011") (some 60)) = .ok
            ⟨some "a@x.com", some "507f1f77bcf86cd799439011", 1060⟩ →
        (⟨some "a@x.com", some "507f1f77bcf86cd799439011", 1060⟩ : TokenPayload)
          = (create_access_token 5 1000 (some "a@x.com")
              (some "507f1f77bcf86cd799439011") (some 60)).payload
        ∧ (create_access_token 5 1000 (some "a@x.com")
            (some "507f1f77bcf86cd799439011") (some 60)).sig
          = macSign 5 (create_access_token 5 1000 (some "a@x.com")
              (some "507f1f77bcf86cd799439011") (some 60)).payload) :=
  tamper_rejected 5 1000 60 1000 (some "a@x.com")
    (some "507f1f77bcf86cd799439011")
    (JWT.mk ⟨some "b@x.com", some "507f1f77bcf86cd799439011", 1060⟩
      (5, ⟨some "a@x.com", some "507f1f77bcf86cd799439011", 1060⟩))
    (create_access_token 5 1000 (some "a@x.com")
      (some "507f1f77bcf86cd799439011") (some 60))
    ⟨some "a@x.com", some "507f1f77bcf86cd799439011", 1060⟩
    (by decide) (Or.inl rfl)

/-! ## Identity Resolver (src/auth.py get_current_user, MongoDB user store) -/

/-- A document of the `users` collection, as inserted by signup
(src/routes/auth_routes.py): `_id` (an ObjectId, kept as its hex string),
email, name, hashed_password. -/
structure UserDoc where
  oid : String
  email : String
  name : String
  hashed_password : BcryptHash
deriving DecidableEq, Repr

/-- The users-collection find_one query on both the _id and the email
field, as issued by get_current_user. -/
def find_one_by_id_email (db : List UserDoc) (uid email : String) :
    Option UserDoc :=
  db.find? (fun u => u.oid == uid && u.email == email)

/-- The users-collection find_one query on the email field alone, as issued
by signup's duplicate-check and by login. -/
def find_one_by_email (db : List UserDoc) (email : String) : Option UserDoc :=
  db.find? (fun u => u.email == email)

/-- An HTTPException / JSON error response as seen by the caller: status
code and detail string. -/
structure HTTPResponse where
  status_code : Nat
  detail : String
deriving DecidableEq, Repr

/-- src/auth.py: the single generic unauthorized outcome raised by
get_current_user for every token failure. -/
def credentials_exception : HTTPResponse :=
  ⟨401, "Could not validate credentials"⟩

/-- src/auth.py `get_current_user`: verify the token (every JWTError and
every claim-shape failure collapses to credentials_exception), then fetch
the user by ObjectId AND email; a missing document is again the
credentials_exception. -/
def get_current_user (secret now : Nat) (db : List UserDoc) (token : JWT) :
    Except HTTPResponse UserDoc :=
  match verify_token secret now token with
  | .error _ => .error credentials_exception
  | .ok (email, uid) =>
    match find_one_by_id_email db uid email with
    | some u => .ok u
    | none => .error credentials_exception

/-- C5: for a token that verifies, resolution fails closed with the generic
unauthorized outcome whenever no stored user carries both the claimed
ObjectId and the claimed email (identifier absent, or stored email differs);
and whenever it succeeds, the returned user is a stored user whose
identifier and email both match the claim. -/
theorem resolver_fails_closed (secret now ttl : Nat) (db : List UserDoc)
    (email uid : String) (u : UserDoc)
    (ht : 0 < ttl) (hv : ObjectId_is_valid uid = true) :
    (db.all (fun v => !(v.oid == uid && v.email == email)) = true →
      get_current_user secret now db
        (create_access_token secret now (some email) (some uid) (some ttl))
        = .error credentials_exception)
    ∧ (get_current_user secret now db
        (create_access_token secret now (some email) (some uid) (some ttl))
        = .ok u →
      u ∈ db ∧ u.oid = uid ∧ u.email = email) := by
  have hver := verify_token_fresh secret now ttl email uid ht hv
  constructor
  · intro hall
    have hnone : find_one_by_id_email db uid email = none := by
      apply List.find?_eq_none.mpr
      intro x hx hcontra
      have h2 := List.all_eq_true.mp hall x hx
      rw [hcontra] at h2
      simp at h2
    simp [get_current_user, hver, hnone]
  · intro hok
    simp only [get_current_user, hver] at hok
    cases hfind : find_one_by_id_email db uid email with
    | none => simp [hfind] at hok
    | some w =>
      simp only [hfind] at hok
      cases hok
      have hmem : u ∈ db := List.mem_of_find?_eq_some hfind
      have hp := List.find?_some hfind
      simp only [Bool.and_eq_true, beq_iff_eq] at hp
      exact ⟨hmem, hp.1, hp.2⟩

/-- Witness for C5: a store holding a user with the claimed identifier but a
different email (the post-email-change scenario) makes resolution fail with
the generic unauthorized outcome. -/
theorem resolver_fails_closed_witness :
    (([⟨"507f1f77bcf86cd799439011", "new@x.com", "A",
        get_password_hash 0 "pw123456"⟩] : List UserDoc).all
        (fun v => !(v.oid == "507f1f77bcf86cd799439011"
          && v.email == "a@x.com")) = true →
      get_current_user 5 1000
        [⟨"507f1f77bcf86cd799439011", "new@x.com", "A",
          get_password_hash 0 "pw123456"⟩]
        (create_access_token 5 1000 (some "a@x.com")
          (some "507f1f77bcf86cd799439011") (some 60))
        = .error credentials_exception)
    ∧ (get_current_user 5 1000
        [⟨"507f1f77bcf86cd799439011", "new@x.com", "A",
          get_password_hash 0 "pw123456"⟩]
        (create_access_token 5 1000 (some "a@x.com")
          (some "507f1f77bcf86cd799439011") (some 60))
        = .ok ⟨"507f1f77bcf86cd799439011", "new@x.com", "A",
            get_password_hash 0 "pw123456"⟩ →
      (⟨"507f1f77bcf86cd799439011", "new@x.com", "A",
          get_password_hash 0 "pw123456"⟩ : UserDoc)
        ∈ ([⟨"507f1f77bcf86cd799439011", "new@x.com", "A",
            get_password_hash 0 "pw123456"⟩] : List UserDoc)
      ∧ (⟨"507f1f77bcf86cd799439011", "new@x.com", "A",
          get_password_hash 0 "pw123456"⟩ : UserDoc).oid
          = "507f1f77bcf86cd799439011"
      ∧ (⟨"507f1f77bcf86cd799439011", "new@x.com", "A",
          get_password_hash 0 "pw123456"⟩ : UserDoc).email = "a@x.com") :=
  resolver_fails_closed 5 1000 60
    [⟨"507f1f77bcf86cd799439011", "new@x.com", "A",
      get_password_hash 0 "pw123456"⟩]
    "a@x.com" "507f1f77bcf86cd799439011"
    ⟨"507f1f77bcf86cd799439011", "new@x.com", "A",
      get_password_hash 0 "pw123456"⟩
    (by decide) (by decide)

/-- C6: every internal token failure — TokenInvalid and TokenExpired alike —
is reported to the HTTP caller as the single generic 401 outcome, while the
two failure kinds remain distinct values internally. -/
theorem token_errors_collapsed (secret now : Nat) (db : List UserDoc)
    (t : JWT) (e : JWTError)
    (h : jwt_decode secret now t = .error e) :
    get_current_user secret now db t = .error credentials_exception
    ∧ JWTError.invalid ≠ JWTError.expired := by
  refine ⟨?_, by decide⟩
  simp [get_current_user, verify_token, h]

/-- Witness for C6: an expired token (issued at 1000 with ttl 60, presented
at 2000) yields the generic 401. -/
theorem token_errors_collapsed_witness :
    get_current_user 5 2000 []
      (create_access_token 5 1000 (some "a@x.com")
        (some "507f1f77bcf86cd799439011") (some 60))
      = .error credentials_exception
    ∧ JWTError.invalid ≠ JWTError.expired :=
  token_errors_collapsed 5 2000 []
    (create_access_token 5 1000 (some "a@x.com")
      (some "507f1f77bcf86cd799439011") (some 60))
    JWTError.expired rfl

/-! ## Session endpoints (src/routes/auth_routes.py, src/app.py) -/

/-- The Token response body returned by signup and login. -/
structure Token where
  access_token : JWT
  token_type : String
deriving DecidableEq, Repr

/-- Outcome of a route call at the HTTP boundary: a success body with its
status code, or an error response. -/
inductive RouteResult where
  | success (status_code : Nat) (body : Token)
  | failure (err : HTTPResponse)
deriving DecidableEq, Repr

/-- src/routes/auth_routes.py `login`: fetch the user by email; if no user
is found, or the password does not verify against the stored hash
(short-circuit, as in the Python `if not user_dict or not verify_password`),
raise the one generic 401; otherwise mint a token carrying the stored email
and the stored id. -/
def login (secret now : Nat) (db : List UserDoc) (email password : String) :
    RouteResult :=
  match find_one_by_email db email with
  | none => .failure ⟨401, "Incorrect email or password."⟩
  | some u =>
    if verify_password password u.hashed_password then
      .success 200
        ⟨create_access_token secret now (some u.email) (some u.oid)
          (some (ACCESS_TOKEN_EXPIRE_MINUTES * 60)), "bearer"⟩
    else .failure ⟨401, "Incorrect email or password."⟩

/-- src/models.py `UserCreate`: the signup request body. -/
structure UserCreate where
  email : String
  password : String
  name : String
deriving DecidableEq, Repr

/-- The pydantic Field constraints on UserCreate (src/models.py): password
min_length 8; name min_length 2, max_length 50. -/
def userCreateValid (u : UserCreate) : Bool :=
  decide (8 ≤ u.password.length) && decide (2 ≤ u.name.length)
    && decide (u.name.length ≤ 50)

/-- The store-level failure of an insert that violates a unique index
(pymongo DuplicateKeyError). -/
inductive DBWriteError where
  | duplicateKey
deriving DecidableEq, Repr

/-- The users-collection insert_one under the unique index on email created
at startup (src/app.py create_index with unique=True): the insert fails with
a duplicate-key error iff a document with the same email is already
present. -/
def insert_one (db : List UserDoc) (u : UserDoc) :
    Except DBWriteError (List UserDoc) :=
  if db.any (fun v => v.email == u.email) then .error .duplicateKey
  else .ok (db ++ [u])

/-- Observable side effects of the signup handler body, in order. -/
inductive Effect where
  | dbRead
  | hashPassword
  | dbWrite
deriving DecidableEq, Repr

/-- src/routes/auth_routes.py `signup` handler body. The store snapshot the
duplicate-check reads (checkDb) is separated from the store state at insert
time (execDb) so that interleavings of concurrent signups can be expressed;
a sequential run has checkDb = execDb. The `insert_one` call sits in no
try/except inside signup, so a duplicate-key error propagates out of the
handler to the app-level general_exception_handler (src/app.py), which
answers 500 with a generic internal-error detail. Returns the boundary
outcome, the resulting store, and the trace of handler effects. -/
def signup (secret now salt : Nat) (checkDb execDb : List UserDoc)
    (uc : UserCreate) (new_id : String) :
    RouteResult × List UserDoc × List Effect :=
  match find_one_by_email checkDb uc.email with
  | some _ =>
    (.failure ⟨400, "Email already registered."⟩, execDb, [.dbRead])
  | none =>
    let hashed := get_password_hash salt uc.password
    let doc : UserDoc := ⟨new_id, uc.email, uc.name, hashed⟩
    match insert_one execDb doc with
    | .ok db2 =>
      (.success 201
        ⟨create_access_token secret now (some uc.email) (some new_id)
          (some (ACCESS_TOKEN_EXPIRE_MINUTES * 60)), "bearer"⟩,
        db2, [.dbRead, .hashPassword, .dbWrite])
    | .error _ =>
      (.failure ⟨500,
          "An internal server error occurred. Please try again later."⟩,
        execDb, [.dbRead, .hashPassword, .dbWrite])

/-- The full POST /auth/signup request handling: FastAPI validates the
UserCreate body against the pydantic constraints before the handler runs; a
violation is answered 422 and the handler body — hashing and every store
access — never executes (empty effect trace, store unchanged). -/
def signup_endpoint (secret now salt : Nat) (db : List UserDoc)
    (uc : UserCreate) (new_id : String) :
    RouteResult × List UserDoc × List Effect :=
  if userCreateValid uc then signup secret now salt db db uc new_id
  else (.failure ⟨422, "Unprocessable Entity"⟩, db, [])

/-- C7: the login failure when no user exists for the email is the very same
outcome as the failure when the user exists but the password does not
verify — one generic 401, indistinguishable to the caller. -/
theorem login_enumeration_safe (secret now : Nat) (db1 db2 : List UserDoc)
    (e1 p1 e2 p2 : String) (u : UserDoc)
    (h1 : find_one_by_email db1 e1 = none)
    (h2 : find_one_by_email db2 e2 = some u)
    (h3 : verify_password p2 u.hashed_password = false) :
    login secret now db1 e1 p1 = login secret now db2 e2 p2
    ∧ login secret now db1 e1 p1
      = .failure ⟨401, "Incorrect email or password."⟩ := by
  have ha : login secret now db1 e1 p1
      = .failure ⟨401, "Incorrect email or password."⟩ := by
    simp [login, h1]
  have hb : login secret now db2 e2 p2
      = .failure ⟨401, "Incorrect email or password."⟩ := by
    simp [login, h2, h3]
  exact ⟨ha.trans hb.symm, ha⟩

/-- Witness for C7: an empty store versus a store holding a@x.com, probed
with a wrong password. -/
theorem login_enumeration_safe_witness :
    login 5 1000 [] "a@x.com" "whatever"
      = login 5 1000
          [⟨"507f1f77bcf86cd799439011", "a@x.com", "A",
            get_password_hash 0 "correct1"⟩] "a@x.com" "wrong123"
    ∧ login 5 1000 [] "a@x.com" "whatever"
      = .failure ⟨401, "Incorrect email or password."⟩ :=
  login_enumeration_safe 5 1000 []
    [⟨"507f1f77bcf86cd799439011", "a@x.com", "A",
      get_password_hash 0 "correct1"⟩]
    "a@x.com" "whatever" "a@x.com" "wrong123"
    ⟨"507f1f77bcf86cd799439011", "a@x.com", "A",
      get_password_hash 0 "correct1"⟩
    rfl rfl (by decide)

/-- C8, evaluated at the failing interleaving: two signups for a@x.com both
pass the duplicate-check against the empty initial store; the first insert
succeeds, and the store's unique index makes the second insert fail, so at
most one insert succeeds (the final store holds exactly one a@x.com user and
the loser leaves the store unchanged) — but the losing signup is answered
with the generic 500 internal-error outcome, not with the 400
"Email already registered." response. -/
theorem signup_race_internal_error :
    (signup 5 1000 1 []
        ((signup 5 1000 0 [] [] ⟨"a@x.com", "longenough1", "A"⟩
          "507f1f77bcf86cd799439011").2.1)
        ⟨"a@x.com", "longenough1", "A"⟩ "507f1f77bcf86cd799439012").1
      = .failure ⟨500,
          "An internal server error occurred. Please try again later."⟩
    ∧ (signup 5 1000 1 []
        ((signup 5 1000 0 [] [] ⟨"a@x.com", "longenough1", "A"⟩
          "507f1f77bcf86cd799439011").2.1)
        ⟨"a@x.com", "longenough1", "A"⟩ "507f1f77bcf86cd799439012").1
      ≠ .failure ⟨400, "Email already registered."⟩
    ∧ (((signup 5 1000 0 [] [] ⟨"a@x.com", "longenough1", "A"⟩
          "507f1f77bcf86cd799439011").2.1).filter
        (fun v => v.email == "a@x.com")).length = 1
    ∧ (signup 5 1000 1 []
        ((signup 5 1000 0 [] [] ⟨"a@x.com", "longenough1", "A"⟩
          "507f1f77bcf86cd799439011").2.1)
        ⟨"a@x.com", "longenough1", "A"⟩ "507f1f77bcf86cd799439012").2.1
      = (signup 5 1000 0 [] [] ⟨"a@x.com", "longenough1", "A"⟩
          "507f1f77bcf86cd799439011").2.1 := by
  refine ⟨rfl, by decide, rfl, rfl⟩

/-- C9 counterexample: two successive calls to the hashing operation on the
same plaintext, with no state change other than the hashing scheme drawing
its salt, return different hash strings — the operation is not a
deterministic function of the plaintext alone. -/
theorem hash_not_plaintext_deterministic :
    (pwd_hash_call 0 "password123").1
      ≠ (pwd_hash_call (pwd_hash_call 0 "password123").2 "password123").1 := by
  decide

/-- C9 amended: hashing is deterministic as a function of the plaintext
together with the salt the scheme draws — equal salts and equal plaintexts
yield the identical hash string — and every hash it returns verifies against
the plaintext it was computed from. -/
theorem hash_deterministic_given_salt (s1 s2 : Nat) (p1 p2 : String)
    (hs : s1 = s2) (hp : p1 = p2) :
    get_password_hash s1 p1 = get_password_hash s2 p2
    ∧ verify_password p1 (get_password_hash s1 p1) = true := by
  subst hs; subst hp
  exact ⟨rfl, by simp [verify_password, get_password_hash]⟩

/-- Witness for the C9 amended claim at concrete inputs. -/
theorem hash_deterministic_given_salt_witness :
    get_password_hash 4 "password123" = get_password_hash 4 "password123"
    ∧ verify_password "password123" (get_password_hash 4 "password123")
      = true :=
  hash_deterministic_given_salt 4 4 "password123" "password123" rfl rfl

/-- C10: signup accepts a request exactly when the password has at least 8
characters and the name between 2 and 50; a request violating the bounds is
rejected at input validation with an unchanged store and an empty handler
effect trace — no hashing, no store read or write, no user created. -/
theorem signup_input_validation (secret now salt : Nat) (db : List UserDoc)
    (uc v : UserCreate) (new_id : String)
    (hinvalid : userCreateValid uc = false) :
    (userCreateValid v = true ↔
      (8 ≤ v.password.length ∧ 2 ≤ v.name.length ∧ v.name.length ≤ 50))
    ∧ signup_endpoint secret now salt db uc new_id
      = (.failure ⟨422, "Unprocessable Entity"⟩, db, ([] : List Effect)) := by
  constructor
  · simp [userCreateValid, and_assoc]
  · simp [signup_endpoint, hinvalid]

/-- Witness for C10: a 5-character password is rejected with no effects,
while a request respecting the bounds validates. -/
theorem signup_input_validation_witness :
    (userCreateValid ⟨"b@x.com", "longenough1", "Bea"⟩ = true ↔
      (8 ≤ ("longenough1" : String).length ∧ 2 ≤ ("Bea" : String).length
        ∧ ("Bea" : String).length ≤ 50))
    ∧ signup_endpoint 5 1000 0 [] ⟨"a@x.com", "short", "Al"⟩
        "507f1f77bcf86cd799439011"
      = (.failure ⟨422, "Unprocessable Entity"⟩, [], ([] : List Effect)) :=
  signup_input_validation 5 1000 0 [] ⟨"a@x.com", "short", "Al"⟩
    ⟨"b@x.com", "longenough1", "Bea"⟩ "507f1f77bcf86cd799439011" (by decide)

end ITWebMVP
